import Mathlib

/-!
Verification of the Quiz repository backend glue code: the `Database`
connection manager (backend/src/config/db.js), the SQL schema DDL,
the request-validation middleware, and the global browser error handler.

Machine numbers that matter (delays, jitter) are modelled over `ℚ`;
external effects (driver results, `Math.random`, timers) are passed in
as explicit parameters, and scheduled timer callbacks are returned as
data.
-/

namespace Quiz

/-- The mutable connection-management fields of the `Database` class
(db.js constructor): `isConnected`, `connectionErrors`,
`reconnectAttempts`.  `pool` and `healthCheck` are driver/timer handles
with no bearing on the claims and are not part of the state. -/
structure DBState where
  isConnected : Bool
  connectionErrors : Nat
  reconnectAttempts : Nat
deriving DecidableEq, Repr

/-- The cap `this.maxReconnectAttempts = 10` (db.js line 15). -/
def maxReconnectAttempts : Nat := 10

/-- The base delay `this.reconnectDelay = 5000` milliseconds (db.js line 16). -/
def reconnectDelay : ℚ := 5000

/-- The state the `Database` constructor builds before it calls
`this.initialize()` (db.js lines 10-21). -/
def initState : DBState :=
  { isConnected := false, connectionErrors := 0, reconnectAttempts := 0 }

/-- The callback a `Database` timer can schedule: `setTimeout(() =>
this.initialize(), delay)` schedules a call to `initialize`. -/
inductive ScheduledAction where
  | initDb
deriving DecidableEq, Repr

/-- Embeds `Database.scheduleReconnect` (db.js lines 196-215).  `jitter` is the
value of the factor `(1 + Math.random() * 0.2)`.  Returns the updated
state and, unless the attempt cap was reached, the delay and callback
handed to `setTimeout`. -/
def scheduleReconnect (s : DBState) (jitter : ℚ) :
    DBState × Option (ℚ × ScheduledAction) :=
  if maxReconnectAttempts ≤ s.reconnectAttempts then
    (s, none)
  else
    let attempts := s.reconnectAttempts + 1
    let delay := min 30000 (reconnectDelay * (3 / 2 : ℚ) ^ (attempts - 1) * jitter)
    ({ s with reconnectAttempts := attempts }, some (delay, ScheduledAction.initDb))

/-- A JavaScript error value: the driver-provided `code` and `message`
fields, which are the only ones db.js inspects. -/
structure JsError where
  code : String
  message : String
deriving DecidableEq, Repr

/-- The human-readable message `Database.testConnection` logs for a
failed connection test, switched on `error.code`
(db.js lines 175-187). -/
def errorLogMessage (e : JsError) : String :=
  match e.code with
  | "ER_ACCESS_DENIED_ERROR" =>
      "Access denied. Please check database username and password."
  | "ECONNREFUSED" =>
      "Connection refused. Please check if MySQL server is running."
  | "ER_BAD_DB_ERROR" =>
      "Database does not exist."
  | _ =>
      "Unknown database error: " ++ e.message

/-- The state update on the success path of `Database.testConnection`
(db.js lines 145-156): only when `isConnected` was false does it set
`isConnected` and reset both counters. -/
def testConnSuccess (s : DBState) : DBState :=
  if s.isConnected then s
  else { isConnected := true, connectionErrors := 0, reconnectAttempts := 0 }

/-- The state update in the catch branch of `Database.testConnection`
(db.js lines 162-164): clear `isConnected`, count the error. -/
def testConnFail (s : DBState) : DBState :=
  { s with isConnected := false, connectionErrors := s.connectionErrors + 1 }

/-- Embeds `Database.testConnection` (db.js lines 117-191).  `outcome` is the
result of the driver interaction (obtaining a connection and running the
probe queries).  Returns the updated state, the error-path log messages,
and the value returned or error re-thrown. -/
def testConnection (s : DBState) (outcome : Except JsError Unit) :
    DBState × List String × Except JsError Bool :=
  match outcome with
  | Except.ok _ => (testConnSuccess s, [], Except.ok true)
  | Except.error e =>
      let s1 := testConnFail s
      (s1, ["Database connection test failed", errorLogMessage e], Except.error e)

/-- Embeds `Database.query` (db.js lines 251-261): on success return the
results; on error log and re-throw the same error. -/
def query {α : Type} (outcome : Except JsError α) :
    List String × Except JsError α :=
  match outcome with
  | Except.ok r => ([], Except.ok r)
  | Except.error e =>
      (["Database query error", "Query", "Parameters"], Except.error e)

/-- The identifiers bound in the module scope of db.js: its three
imports (lines 2-4) and its top-level declarations (lines 9, 310,
313-316).  `fs` is not among them. -/
def dbJsModuleScope : List String :=
  ["mysql", "configService", "logger", "Database", "database",
   "pool", "testConnection", "dbQuery", "getConnection"]

/-- The `ReferenceError` JavaScript raises when an unbound identifier is
evaluated. -/
def referenceError (x : String) : JsError :=
  { code := "ReferenceError", message := x ++ " is not defined" }

/-- Embeds `Database.initializeSchema` (db.js lines 279-306).  `connOutcome` is
the result of `this.getConnection()`.  On a live connection the body
evaluates `fs.promises.readFile`; `fs` is resolved in the module scope,
and, being unbound there, raises a `ReferenceError` which the catch
branch logs and re-throws.  (Were `fs` bound, the body would read and
execute ../database.sql; that branch is unreachable in this module.) -/
def initSchema (connOutcome : Except JsError Unit) : Except JsError Unit :=
  match connOutcome with
  | Except.error e => Except.error e
  | Except.ok _ =>
      if dbJsModuleScope.contains "fs" then Except.ok ()
      else Except.error (referenceError "fs")

/-- The outcome of one run of `Database.initialize`
(db.js lines 26-69). -/
structure InitResult where
  state : DBState
  caughtError : Bool
  scheduled : Option (ℚ × ScheduledAction)
deriving DecidableEq, Repr

/-- Embeds `Database.initialize` (db.js lines 26-69).  `testOutcome` is the
driver interaction of `testConnection`, `connOutcome` that of
`getConnection` inside `initializeSchema`, and `jitter` the random
factor a reconnect would use.  The try block runs `testConnection` then
`initializeSchema`; any throw lands in the catch branch, which sets
`isConnected` to false and calls `scheduleReconnect`. -/
def initDb (s : DBState) (testOutcome connOutcome : Except JsError Unit)
    (jitter : ℚ) : InitResult :=
  match testOutcome with
  | Except.error _ =>
      let s1 := testConnFail s
      let p := scheduleReconnect { s1 with isConnected := false } jitter
      { state := p.1, caughtError := true, scheduled := p.2 }
  | Except.ok _ =>
      let s1 := testConnSuccess s
      match initSchema connOutcome with
      | Except.error _ =>
          let p := scheduleReconnect { s1 with isConnected := false } jitter
          { state := p.1, caughtError := true, scheduled := p.2 }
      | Except.ok _ =>
          { state := s1, caughtError := false, scheduled := none }

/-- The period of the health-check interval set by
`Database.setupConnectionMonitoring`: 30000 ms (db.js line 93). -/
def healthCheckIntervalMs : Nat := 30000

/-- One firing of the health-check callback installed by
`Database.setupConnectionMonitoring` (db.js lines 81-93).  It awaits
`testConnection(false)`; if that throws, the catch branch tests
`this.isConnected` as left by `testConnection` and only then clears it
and calls `scheduleReconnect`. -/
def healthCheckTick (s : DBState) (outcome : Except JsError Unit)
    (jitter : ℚ) : DBState × Option (ℚ × ScheduledAction) :=
  match outcome with
  | Except.ok _ => (testConnSuccess s, none)
  | Except.error _ =>
      let s1 := testConnFail s
      if s1.isConnected then
        scheduleReconnect { s1 with isConnected := false } jitter
      else
        (s1, none)

/-- One `Database` operation that touches the connection state:
a connection test, a reconnect scheduling, a run of `initialize`, or a
health-check firing. -/
inductive Step : DBState → DBState → Prop where
  | testConn (s : DBState) (o : Except JsError Unit) :
      Step s (testConnection s o).1
  | schedule (s : DBState) (j : ℚ) :
      Step s (scheduleReconnect s j).1
  | init (s : DBState) (t c : Except JsError Unit) (j : ℚ) :
      Step s (initDb s t c j).state
  | health (s : DBState) (o : Except JsError Unit) (j : ℚ) :
      Step s (healthCheckTick s o j).1

/-- The states a `Database` instance can be in: the constructor state
followed by any sequence of operations. -/
inductive Reachable : DBState → Prop where
  | init : Reachable initState
  | step {s t : DBState} : Reachable s → Step s t → Reachable t

/-! ## The relational schema (database.sql) -/

/-- The role column ENUM of the users table: admin or user. -/
inductive Role where
  | admin
  | user
deriving DecidableEq, Repr

/-- The difficulty column ENUM of the quizzes table: easy, medium or hard. -/
inductive Difficulty where
  | easy
  | medium
  | hard
deriving DecidableEq, Repr

/-- The question_type column ENUM of the questions table. -/
inductive QuestionType where
  | multiple_choice
  | true_false
  | short_answer
deriving DecidableEq, Repr

/-- A row of the `users` table (database.sql lines 2-12); the timestamp
columns, which no referential action reads, are omitted. -/
structure UserRow where
  id : Nat
  email : String
  password : String
  name : Option String
  role : Role
deriving DecidableEq, Repr

/-- A row of the `quizzes` table (database.sql lines 15-27); timestamps
omitted.  `user_id` carries `FOREIGN KEY (user_id) REFERENCES users(id)
ON DELETE CASCADE`. -/
structure QuizRow where
  id : Nat
  user_id : Nat
  title : String
  description : Option String
  topic : Option String
  difficulty : Difficulty
deriving DecidableEq, Repr

/-- A row of the `questions` table (database.sql lines 30-42);
timestamps omitted, the JSON `options` blob kept opaque as a string.
`quiz_id` carries `FOREIGN KEY (quiz_id) REFERENCES quizzes(id)
ON DELETE CASCADE`. -/
structure QuestionRow where
  id : Nat
  quiz_id : Nat
  question_text : String
  question_type : QuestionType
  correct_answer : String
  options : Option String
  explanation : Option String
  points : Int
deriving DecidableEq, Repr

/-- The contents of the three tables. -/
structure DBRows where
  users : List UserRow
  quizzes : List QuizRow
  questions : List QuestionRow
deriving DecidableEq, Repr

/-- The constraints database.sql declares and InnoDB enforces: primary
keys and the unique email index are duplicate-free, and both foreign
keys reference an existing parent row. -/
def schemaOk (db : DBRows) : Prop :=
  (db.users.map UserRow.id).Nodup ∧
  (db.users.map UserRow.email).Nodup ∧
  (db.quizzes.map QuizRow.id).Nodup ∧
  (db.questions.map QuestionRow.id).Nodup ∧
  (∀ q ∈ db.quizzes, ∃ u ∈ db.users, u.id = q.user_id) ∧
  (∀ qq ∈ db.questions, ∃ q ∈ db.quizzes, q.id = qq.quiz_id)

instance (db : DBRows) : Decidable (schemaOk db) := by
  unfold schemaOk; infer_instance

/-- Deleting the users row with id `uid` under the declared referential
actions: InnoDB deletes the user row, cascades to every quizzes row
whose `user_id` references it, and from each such quizzes row cascades
to every questions row whose `quiz_id` references it. -/
def deleteUser (db : DBRows) (uid : Nat) : DBRows :=
  let deletedQuizIds := (db.quizzes.filter (fun q => q.user_id == uid)).map QuizRow.id
  { users := db.users.filter (fun u => u.id != uid)
    quizzes := db.quizzes.filter (fun q => q.user_id != uid)
    questions := db.questions.filter (fun qq => !(deletedQuizIds.contains qq.quiz_id)) }

/-- Deleting the quizzes row with id `qid` under the declared referential
actions: InnoDB deletes the quiz row and cascades to every questions
row whose `quiz_id` references it. -/
def deleteQuiz (db : DBRows) (qid : Nat) : DBRows :=
  { users := db.users
    quizzes := db.quizzes.filter (fun q => q.id != qid)
    questions := db.questions.filter (fun qq => qq.quiz_id != qid) }

/-! ## Schema creation (Database.initializeSchema executing the DDL) -/

/-- A table definition: the column names with their SQL type text. -/
abbrev TableDef := List (String × String)

/-- The `users` table definition from database.sql. -/
def usersTable : TableDef :=
  [("id", "INT PRIMARY KEY AUTO_INCREMENT"),
   ("email", "VARCHAR(255) NOT NULL UNIQUE"),
   ("password", "VARCHAR(255) NOT NULL"),
   ("name", "VARCHAR(255)"),
   ("role", "ENUM DEFAULT user"),
   ("created_at", "TIMESTAMP DEFAULT CURRENT_TIMESTAMP"),
   ("updated_at", "TIMESTAMP DEFAULT CURRENT_TIMESTAMP ON UPDATE CURRENT_TIMESTAMP"),
   ("last_login", "TIMESTAMP NULL")]

/-- The `quizzes` table definition from database.sql. -/
def quizzesTable : TableDef :=
  [("id", "INT PRIMARY KEY AUTO_INCREMENT"),
   ("user_id", "INT NOT NULL REFERENCES users(id) ON DELETE CASCADE"),
   ("title", "VARCHAR(255) NOT NULL"),
   ("description", "TEXT"),
   ("topic", "VARCHAR(255)"),
   ("difficulty", "ENUM DEFAULT medium"),
   ("created_at", "TIMESTAMP DEFAULT CURRENT_TIMESTAMP"),
   ("updated_at", "TIMESTAMP DEFAULT CURRENT_TIMESTAMP ON UPDATE CURRENT_TIMESTAMP")]

/-- The `questions` table definition from database.sql. -/
def questionsTable : TableDef :=
  [("id", "INT PRIMARY KEY AUTO_INCREMENT"),
   ("quiz_id", "INT NOT NULL REFERENCES quizzes(id) ON DELETE CASCADE"),
   ("question_text", "TEXT NOT NULL"),
   ("question_type", "ENUM DEFAULT multiple_choice"),
   ("correct_answer", "TEXT NOT NULL"),
   ("options", "JSON"),
   ("explanation", "TEXT"),
   ("points", "INT DEFAULT 1"),
   ("created_at", "TIMESTAMP DEFAULT CURRENT_TIMESTAMP")]

/-- The catalog of a database: the tables that exist, by name. -/
abbrev SchemaState := List (String × TableDef)

/-- Executes `CREATE TABLE IF NOT EXISTS`: a no-op when a table of
that name already exists, otherwise the table is created. -/
def createTableIfNotExists (name : String) (td : TableDef)
    (st : SchemaState) : SchemaState :=
  if st.any (fun p => p.1 == name) then st else st ++ [(name, td)]

/-- Executing the three DDL statements of database.sql in order, as
`Database.initializeSchema` would (split on semicolons, executed one by
one). -/
def runSchemaDDL (st : SchemaState) : SchemaState :=
  createTableIfNotExists "questions" questionsTable
    (createTableIfNotExists "quizzes" quizzesTable
      (createTableIfNotExists "users" usersTable st))

/-! ## The validate middleware (middleware file) -/

/-- One record of `validationResult(req)`: express-validator exposes
`param` (the offending field) and `msg`. -/
structure ValidationError where
  param : String
  msg : String
deriving DecidableEq, Repr

/-- One element of the response body `errors` array built by
`validate`. -/
structure ErrorItem where
  field : String
  message : String
deriving DecidableEq, Repr

/-- The JSON body `validate` sends on validation failure. -/
structure JsonBody where
  success : Bool
  errors : List ErrorItem
deriving DecidableEq, Repr

/-- What a middleware invocation does to the request: either send one
response and stop, or pass to the next middleware. -/
inductive MiddlewareResult where
  | response (status : Nat) (body : JsonBody)
  | next
deriving DecidableEq, Repr

/-- The `validate` middleware: `errs` is `validationResult(req)` as a
list.  If it is not empty, respond 400 with the mapped errors and
return; otherwise call `next()`. -/
def validate (errs : List ValidationError) : MiddlewareResult :=
  if !errs.isEmpty then
    MiddlewareResult.response 400
      { success := false
        errors := errs.map (fun e => { field := e.param, message := e.msg }) }
  else
    MiddlewareResult.next

/-! ## The global browser error handler -/

/-- An observable action a window event handler performs, in order. -/
inductive HandlerAction where
  | consoleError (label : String) (payload : String)
  | preventDefault
deriving DecidableEq, Repr

/-- The `error` listener installed by `setupGlobalErrorHandler`:
log `event.error`, then (in production, a commented-out call to an
error-tracking service — no action), then `event.preventDefault()`. -/
def onWindowError (nodeEnv : String) (eventError : String) :
    List HandlerAction :=
  [HandlerAction.consoleError "Global error caught:" eventError] ++
  (if nodeEnv == "production" then ([] : List HandlerAction) else []) ++
  [HandlerAction.preventDefault]

/-- The `unhandledrejection` listener installed by
`setupGlobalErrorHandler`: log `event.reason`, then (production branch
empty as above), then `event.preventDefault()`. -/
def onUnhandledRejection (nodeEnv : String) (eventReason : String) :
    List HandlerAction :=
  [HandlerAction.consoleError "Unhandled promise rejection:" eventReason] ++
  (if nodeEnv == "production" then ([] : List HandlerAction) else []) ++
  [HandlerAction.preventDefault]

/-- Embeds `setupGlobalErrorHandler`: the listeners it registers on the
window, by event name. -/
def setupGlobalErrorHandler :
    List (String × (String → String → List HandlerAction)) :=
  [("error", onWindowError), ("unhandledrejection", onUnhandledRejection)]

/-- A small populated database used to witness the cascade theorem:
two users each owning one quiz with one question. -/
def sampleDB : DBRows :=
  { users :=
      [{ id := 1, email := "a@x.com", password := "pw1", name := none,
         role := Role.user },
       { id := 2, email := "b@x.com", password := "pw2", name := none,
         role := Role.user }]
    quizzes :=
      [{ id := 1, user_id := 1, title := "t1", description := none,
         topic := none, difficulty := Difficulty.medium },
       { id := 2, user_id := 2, title := "t2", description := none,
         topic := none, difficulty := Difficulty.medium }]
    questions :=
      [{ id := 1, quiz_id := 1, question_text := "q1",
         question_type := QuestionType.multiple_choice,
         correct_answer := "a", options := none, explanation := none,
         points := 1 },
       { id := 2, quiz_id := 2, question_text := "q2",
         question_type := QuestionType.multiple_choice,
         correct_answer := "b", options := none, explanation := none,
         points := 1 }] }

/-- The quiz row of `sampleDB` owned by user 1. -/
def sampleQuiz1 : QuizRow :=
  { id := 1, user_id := 1, title := "t1", description := none,
    topic := none, difficulty := Difficulty.medium }

/-! ## Helper lemmas -/

/-- The function `scheduleReconnect` never changes `isConnected`. -/
lemma scheduleReconnect_isConnected (s : DBState) (j : ℚ) :
    (scheduleReconnect s j).1.isConnected = s.isConnected := by
  unfold scheduleReconnect
  split <;> rfl

/-- The function `scheduleReconnect` keeps the attempt counter within the cap. -/
lemma scheduleReconnect_attempts_le (s : DBState) (j : ℚ)
    (h : s.reconnectAttempts ≤ 10) :
    (scheduleReconnect s j).1.reconnectAttempts ≤ 10 := by
  unfold scheduleReconnect maxReconnectAttempts
  split
  · exact h
  · rename_i hlt
    simp only [not_le] at hlt
    show s.reconnectAttempts + 1 ≤ 10
    omega

/-- The function `testConnection` keeps the attempt counter within the cap. -/
lemma testConnection_attempts_le (s : DBState) (o : Except JsError Unit)
    (h : s.reconnectAttempts ≤ 10) :
    (testConnection s o).1.reconnectAttempts ≤ 10 := by
  cases o with
  | ok u =>
      show (testConnSuccess s).reconnectAttempts ≤ 10
      unfold testConnSuccess
      split
      · exact h
      · exact Nat.zero_le 10
  | error e => exact h

/-- The function `initSchema` fails whatever the connection outcome. -/
lemma initSchema_error (c : Except JsError Unit) :
    ∃ e : JsError, initSchema c = Except.error e := by
  cases c with
  | error e => exact ⟨e, rfl⟩
  | ok u => exact ⟨referenceError "fs", rfl⟩

/-- The function `initDb` keeps the attempt counter within the cap. -/
lemma initDb_attempts_le (s : DBState) (t c : Except JsError Unit) (j : ℚ)
    (h : s.reconnectAttempts ≤ 10) :
    (initDb s t c j).state.reconnectAttempts ≤ 10 := by
  cases t with
  | error e =>
      exact scheduleReconnect_attempts_le _ j h
  | ok u =>
      obtain ⟨e', he⟩ := initSchema_error c
      show (match initSchema c with
        | Except.error _ =>
            { state := (scheduleReconnect
                { testConnSuccess s with isConnected := false } j).1,
              caughtError := true,
              scheduled := (scheduleReconnect
                { testConnSuccess s with isConnected := false } j).2 : InitResult }
        | Except.ok _ =>
            { state := testConnSuccess s, caughtError := false,
              scheduled := none }).state.reconnectAttempts ≤ 10
      rw [he]
      exact scheduleReconnect_attempts_le _ j
        (testConnection_attempts_le s (Except.ok ()) h)

/-- A health-check firing keeps the attempt counter within the cap. -/
lemma healthCheckTick_attempts_le (s : DBState) (o : Except JsError Unit)
    (j : ℚ) (h : s.reconnectAttempts ≤ 10) :
    (healthCheckTick s o j).1.reconnectAttempts ≤ 10 := by
  cases o with
  | ok u => exact testConnection_attempts_le s (Except.ok ()) h
  | error e => exact h

/-! ## Claim theorems -/

/-- Claim C1: for every reconnect attempt number n with 1 ≤ n ≤ 10 and
every jitter factor j in [1, 1.2], `Database.scheduleReconnect` for
attempt n computes delay = min(30000 ms, 5000 ms · 1.5^(n-1) · j) and
schedules a call to `initialize` after exactly that delay. -/
theorem scheduleReconnect_delay_eq (n : ℕ) (j : ℚ) (s : DBState)
    (hn1 : 1 ≤ n) (hn10 : n ≤ 10) (hj1 : 1 ≤ j) (hj2 : j ≤ 6 / 5)
    (hs : s.reconnectAttempts = n - 1) :
    scheduleReconnect s j =
      ({ s with reconnectAttempts := n },
        some (min 30000 (5000 * (3 / 2 : ℚ) ^ (n - 1) * j),
          ScheduledAction.initDb)) := by
  unfold scheduleReconnect maxReconnectAttempts reconnectDelay
  rw [if_neg (by omega)]
  show ({ s with reconnectAttempts := s.reconnectAttempts + 1 },
      some (min 30000
        ((5000 : ℚ) * (3 / 2 : ℚ) ^ (s.reconnectAttempts + 1 - 1) * j),
        ScheduledAction.initDb)) = _
  have h1 : s.reconnectAttempts + 1 = n := by omega
  rw [h1]

/-- Witness for C1 at n = 3, j = 1: from attempt counter 2 the third
attempt is scheduled with delay min(30000, 5000 · 1.5² · 1). -/
theorem scheduleReconnect_delay_eq_witness :
    scheduleReconnect
        { isConnected := false, connectionErrors := 0, reconnectAttempts := 2 } 1 =
      ({ isConnected := false, connectionErrors := 0, reconnectAttempts := 3 },
        some (min 30000 (5000 * (3 / 2 : ℚ) ^ (3 - 1) * 1),
          ScheduledAction.initDb)) :=
  scheduleReconnect_delay_eq 3 1
    { isConnected := false, connectionErrors := 0, reconnectAttempts := 2 }
    (by decide) (by decide) (by norm_num) (by norm_num) (by decide)

/-- Claim C2: `scheduleReconnect` neither schedules a retry nor
increments the counter once `reconnectAttempts` has reached
`maxReconnectAttempts` = 10, and in every state reachable by any
sequence of `Database` operations the counter stays at most 10. -/
theorem reconnectAttempts_capped :
    (∀ (s : DBState) (j : ℚ), maxReconnectAttempts ≤ s.reconnectAttempts →
      scheduleReconnect s j = (s, none)) ∧
    (∀ s : DBState, Reachable s → s.reconnectAttempts ≤ 10) := by
  constructor
  · intro s j h
    unfold scheduleReconnect
    rw [if_pos h]
  · intro s hr
    induction hr with
    | init => exact Nat.zero_le 10
    | step hreach hstep ih =>
        cases hstep with
        | testConn o => exact testConnection_attempts_le _ o ih
        | schedule j => exact scheduleReconnect_attempts_le _ j ih
        | init t c j => exact initDb_attempts_le _ t c j ih
        | health o j => exact healthCheckTick_attempts_le _ o j ih

/-- Witness for C2: at the cap, scheduling is refused and the state kept;
the constructor state satisfies the invariant. -/
theorem reconnectAttempts_capped_witness :
    scheduleReconnect
        { isConnected := false, connectionErrors := 3, reconnectAttempts := 10 } 1 =
      ({ isConnected := false, connectionErrors := 3, reconnectAttempts := 10 },
        none) ∧
    initState.reconnectAttempts ≤ 10 :=
  ⟨(reconnectAttempts_capped.1
      { isConnected := false, connectionErrors := 3, reconnectAttempts := 10 } 1
      (by decide)),
   reconnectAttempts_capped.2 initState Reachable.init⟩

/-- Claim C3: `initializeSchema` throws on every call because `fs` is
unbound in db.js, so `Database.initialize` never completes: every run
takes the catch branch, which leaves `isConnected` false and hands the
state to `scheduleReconnect`. -/
theorem initSchema_fs_unbound :
    (∀ c : Except JsError Unit, ∃ e : JsError, initSchema c = Except.error e) ∧
    initSchema (Except.ok ()) = Except.error (referenceError "fs") ∧
    (∀ (s : DBState) (t c : Except JsError Unit) (j : ℚ),
      (initDb s t c j).caughtError = true ∧
      (initDb s t c j).state.isConnected = false ∧
      (∃ s' : DBState, s'.isConnected = false ∧
        (initDb s t c j).state = (scheduleReconnect s' j).1 ∧
        (initDb s t c j).scheduled = (scheduleReconnect s' j).2)) := by
  refine ⟨initSchema_error, rfl, ?_⟩
  intro s t c j
  cases t with
  | error e =>
      refine ⟨rfl, ?_,
        ⟨{ testConnFail s with isConnected := false }, rfl, rfl, rfl⟩⟩
      exact scheduleReconnect_isConnected
        { testConnFail s with isConnected := false } j
  | ok u =>
      obtain ⟨e', he⟩ := initSchema_error c
      have hred : initDb s (Except.ok u) c j =
          { state := (scheduleReconnect
              { testConnSuccess s with isConnected := false } j).1,
            caughtError := true,
            scheduled := (scheduleReconnect
              { testConnSuccess s with isConnected := false } j).2 } := by
        unfold initDb
        rw [he]
      rw [hred]
      refine ⟨rfl, ?_,
        ⟨{ testConnSuccess s with isConnected := false }, rfl, rfl, rfl⟩⟩
      exact scheduleReconnect_isConnected
        { testConnSuccess s with isConnected := false } j

/-- Claim C7 evaluated on the code: the health-check interval is
30000 ms, but when the callback's connection test fails,
`testConnection` has already cleared `isConnected` before the callback's
catch branch tests it, so the guard is always false and no reconnect is
ever scheduled from the health check — the firing leaves the state as
`testConnFail` left it and schedules nothing, even from a connected
state. -/
theorem healthCheck_no_reconnect_on_failure :
    healthCheckIntervalMs = 30000 ∧
    (∀ (s : DBState) (e : JsError) (j : ℚ),
      healthCheckTick s (Except.error e) j = (testConnFail s, none)) ∧
    healthCheckTick
        { isConnected := true, connectionErrors := 0, reconnectAttempts := 0 }
        (Except.error { code := "ECONNREFUSED", message := "" }) 1 =
      ({ isConnected := false, connectionErrors := 1, reconnectAttempts := 0 },
        none) :=
  ⟨rfl, fun _ _ _ => rfl, rfl⟩

/-- Claim C9: when a connection test succeeds while `isConnected` is
false, `Database.testConnection` sets `isConnected` and resets both
`connectionErrors` and `reconnectAttempts` to 0, returning true with
nothing logged on the error path. -/
theorem testConnection_success_resets (s : DBState)
    (h : s.isConnected = false) :
    testConnection s (Except.ok ()) =
      ({ isConnected := true, connectionErrors := 0, reconnectAttempts := 0 },
        [], Except.ok true) := by
  unfold testConnection testConnSuccess
  rw [h]
  rfl

/-- Witness for C9 from a disconnected state with stale counters. -/
theorem testConnection_success_resets_witness :
    testConnection
        { isConnected := false, connectionErrors := 4, reconnectAttempts := 7 }
        (Except.ok ()) =
      ({ isConnected := true, connectionErrors := 0, reconnectAttempts := 0 },
        [], Except.ok true) :=
  testConnection_success_resets
    { isConnected := false, connectionErrors := 4, reconnectAttempts := 7 } rfl

/-- Claim C4: in every schema-satisfying state, deleting a user cascades
to all quizzes referencing it and (through those) to all questions
referencing the removed quizzes, and deleting a quiz cascades to all
questions referencing it, leaving no orphaned quizzes or questions
rows. -/
theorem delete_cascade_no_orphans (db : DBRows) (uid : Nat)
    (h : schemaOk db) :
    (∀ q ∈ (deleteUser db uid).quizzes,
      q.user_id ≠ uid ∧ ∃ u ∈ (deleteUser db uid).users, u.id = q.user_id) ∧
    (∀ qq ∈ (deleteUser db uid).questions,
      ∃ q ∈ (deleteUser db uid).quizzes, q.id = qq.quiz_id) ∧
    (∀ qid : Nat, ∀ qq ∈ (deleteQuiz db qid).questions,
      qq.quiz_id ≠ qid ∧
        ∃ q ∈ (deleteQuiz db qid).quizzes, q.id = qq.quiz_id) := by
  obtain ⟨-, -, -, -, hfkQuiz, hfkQuestion⟩ := h
  refine ⟨?_, ?_, ?_⟩
  · intro q hq
    rw [deleteUser, List.mem_filter] at hq
    obtain ⟨hq1, hq2⟩ := hq
    have hne : q.user_id ≠ uid := by simpa using hq2
    obtain ⟨u, hu, huid⟩ := hfkQuiz q hq1
    refine ⟨hne, u, ?_, huid⟩
    rw [deleteUser, List.mem_filter]
    exact ⟨hu, by simp [huid, hne]⟩
  · intro qq hqq
    rw [deleteUser, List.mem_filter] at hqq
    obtain ⟨hq1, hq2⟩ := hqq
    obtain ⟨q, hq, hqid⟩ := hfkQuestion qq hq1
    have hne : q.user_id ≠ uid := by
      intro heq
      have hmem : qq.quiz_id ∈
          ((db.quizzes.filter (fun r => r.user_id == uid)).map QuizRow.id) := by
        rw [List.mem_map]
        exact ⟨q, List.mem_filter.mpr ⟨hq, by simp [heq]⟩, hqid⟩
      simp [hmem] at hq2
    refine ⟨q, ?_, hqid⟩
    rw [deleteUser, List.mem_filter]
    exact ⟨hq, by simp [hne]⟩
  · intro qid qq hqq
    rw [deleteQuiz, List.mem_filter] at hqq
    obtain ⟨hq1, hq2⟩ := hqq
    have hne : qq.quiz_id ≠ qid := by simpa using hq2
    obtain ⟨q, hq, hqid⟩ := hfkQuestion qq hq1
    refine ⟨hne, q, ?_, hqid⟩
    rw [deleteQuiz, List.mem_filter]
    exact ⟨hq, by simp [hqid, hne]⟩

/-- Witness for C4: in `sampleDB` after deleting user 2, the surviving
quiz row does not reference user 2 and its owner row survives. -/
theorem delete_cascade_no_orphans_witness :
    sampleQuiz1.user_id ≠ 2 ∧
    ∃ u ∈ (deleteUser sampleDB 2).users, u.id = sampleQuiz1.user_id :=
  (delete_cascade_no_orphans sampleDB 2 (by decide)).1 sampleQuiz1 (by decide)

/-- Claim C5: executing the three CREATE TABLE IF NOT EXISTS statements
a second time leaves any state produced by a first execution
unchanged. -/
theorem schemaDDL_idempotent (st : SchemaState) :
    runSchemaDDL (runSchemaDDL st) = runSchemaDDL st := by
  have hmono : ∀ (n m : String) (td : TableDef) (s : SchemaState),
      s.any (fun p => p.1 == m) = true →
      (createTableIfNotExists n td s).any (fun p => p.1 == m) = true := by
    intro n m td s h
    unfold createTableIfNotExists
    split
    · exact h
    · simp only [List.any_append, h, Bool.true_or]
  have hself : ∀ (n : String) (td : TableDef) (s : SchemaState),
      (createTableIfNotExists n td s).any (fun p => p.1 == n) = true := by
    intro n td s
    unfold createTableIfNotExists
    split
    · assumption
    · simp [List.any_append]
  have hskip : ∀ (n : String) (td : TableDef) (s : SchemaState),
      s.any (fun p => p.1 == n) = true → createTableIfNotExists n td s = s := by
    intro n td s h
    unfold createTableIfNotExists
    rw [if_pos h]
  have hu : (runSchemaDDL st).any (fun p => p.1 == "users") = true := by
    unfold runSchemaDDL
    exact hmono _ _ _ _ (hmono _ _ _ _ (hself _ _ _))
  have hq : (runSchemaDDL st).any (fun p => p.1 == "quizzes") = true := by
    unfold runSchemaDDL
    exact hmono _ _ _ _ (hself _ _ _)
  have hn : (runSchemaDDL st).any (fun p => p.1 == "questions") = true := by
    unfold runSchemaDDL
    exact hself _ _ _
  show createTableIfNotExists "questions" questionsTable
      (createTableIfNotExists "quizzes" quizzesTable
        (createTableIfNotExists "users" usersTable (runSchemaDDL st))) =
    runSchemaDDL st
  rw [hskip "users" usersTable (runSchemaDDL st) hu,
    hskip "quizzes" quizzesTable (runSchemaDDL st) hq,
    hskip "questions" questionsTable (runSchemaDDL st) hn]

/-- Claim C6: a failed `Database.testConnection` logs the message
selected by the driver error code and re-throws the same error, and
`Database.query` re-throws any query error unchanged after logging. -/
theorem testConnection_query_rethrow :
    (∀ (s : DBState) (e : JsError),
      (testConnection s (Except.error e)).2.1 =
        ["Database connection test failed", errorLogMessage e] ∧
      (testConnection s (Except.error e)).2.2 = Except.error e) ∧
    (∀ m : String,
      errorLogMessage { code := "ER_ACCESS_DENIED_ERROR", message := m } =
        "Access denied. Please check database username and password.") ∧
    (∀ m : String,
      errorLogMessage { code := "ECONNREFUSED", message := m } =
        "Connection refused. Please check if MySQL server is running.") ∧
    (∀ m : String,
      errorLogMessage { code := "ER_BAD_DB_ERROR", message := m } =
        "Database does not exist.") ∧
    (∀ (α : Type) (e : JsError),
      (query (Except.error e) : List String × Except JsError α).2 =
        Except.error e) :=
  ⟨fun _ _ => ⟨rfl, rfl⟩, fun _ => rfl, fun _ => rfl, fun _ => rfl,
    fun _ _ => rfl⟩

/-- Claim C8: `setupGlobalErrorHandler` installs listeners for the
window `error` and `unhandledrejection` events, and in every NODE_ENV
each listener first logs the error (or rejection reason) and then calls
`preventDefault`, with no other observable action. -/
theorem globalErrorHandler_logs_then_prevents :
    setupGlobalErrorHandler =
      [("error", onWindowError), ("unhandledrejection", onUnhandledRejection)] ∧
    (∀ env err : String,
      onWindowError env err =
        [HandlerAction.consoleError "Global error caught:" err,
         HandlerAction.preventDefault]) ∧
    (∀ env reason : String,
      onUnhandledRejection env reason =
        [HandlerAction.consoleError "Unhandled promise rejection:" reason,
         HandlerAction.preventDefault]) := by
  refine ⟨rfl, ?_, ?_⟩ <;>
    intro env x <;>
    simp [onWindowError, onUnhandledRejection]

/-- Claim C10: `validate` performs exactly one of two actions: with a
non-empty validation result it responds 400 with
`success: false` and the errors mapped to field/message pairs and does
not call `next`; with an empty result it calls `next` and sends no
response. -/
theorem validate_response_or_next (errs : List ValidationError) :
    (errs ≠ [] →
      validate errs =
        MiddlewareResult.response 400
          { success := false
            errors := errs.map
              (fun e => { field := e.param, message := e.msg }) }) ∧
    (errs = [] → validate errs = MiddlewareResult.next) := by
  constructor
  · intro h
    cases errs with
    | nil => exact absurd rfl h
    | cons a l => rfl
  · intro h
    rw [h]
    rfl

/-- Witness for C10: one invalid field produces the 400 response with
the mapped error, after discharging the non-emptiness hypothesis. -/
theorem validate_response_or_next_witness :
    validate [{ param := "email", msg := "Invalid email" }] =
      MiddlewareResult.response 400
        { success := false
          errors := [{ field := "email", message := "Invalid email" }] } :=
  (validate_response_or_next [{ param := "email", msg := "Invalid email" }]).1
    (by decide)

end Quiz
